import Mathlib

/-!
Verification of the steampy_async Authentication & Confirmation Subsystem.

Shallow embedding of `steampy/confirmation.py`, `steampy/login.py` and
`steampy/client.py`.  Network I/O is modelled by an explicit environment
(the pages/JSON bodies the provider would return, consumed in order) and an
explicit trace of the HTTP requests the code issues.  `time.time()` is
modelled by a clock function `Nat → Nat` from call index to timestamp;
each call that reads the wall clock consumes one tick.

The repository's `guard.py` is not present in the sources (only its call
sites are), so the two key generators and the device id are modelled from
the spec; since every derived value is a deterministic function of its
inputs and its internal digest bytes are never inspected by the code under
verification, each derived value is represented by the tuple of inputs
that determines it.
-/

set_option autoImplicit false

namespace Steampy

/-- Modelled from the spec: `guard.generate_confirmation_key` is missing from
the sources.  Per the spec it is the base64 of an HMAC-SHA1 keyed by the
identity secret over the 8-byte big-endian timestamp followed by the tag
bytes — a deterministic function of `(secret, tag, timestamp)` whose digest
bytes are never inspected downstream, so the value is represented by that
determining triple. -/
structure ConfKey where
  secret : String
  tag : String
  time : Nat
deriving DecidableEq, Repr

/-- Modelled from the spec: the confirmation-key derivation (see `ConfKey`). -/
def generate_confirmation_key (identitySecret tagString : String) (timestamp : Nat) : ConfKey :=
  ⟨identitySecret, tagString, timestamp⟩

/-- Modelled from the spec: `guard.generate_device_id` is missing from the
sources.  Per the spec the device id is a stable hash of the account id,
deterministic per account; it is represented by its determining input. -/
structure DeviceId where
  steamId : String
deriving DecidableEq, Repr

/-- Modelled from the spec: the device-id derivation (see `DeviceId`). -/
def generate_device_id (steamId : String) : DeviceId :=
  ⟨steamId⟩

/-- Modelled from the spec: `guard.generate_one_time_code` is missing from the
sources.  Per the spec the login one-time code is a pure function of
`(shared_secret, floor(timestamp/30))`; its digit rendering is never
inspected by the code under verification, so the code is represented by
that determining pair. -/
structure Otp where
  secret : String
  timestep : Nat
deriving DecidableEq, Repr

/-- Modelled from the spec: the login one-time-code derivation (see `Otp`). -/
def generate_one_time_code (sharedSecret : String) (timestamp : Nat) : Otp :=
  ⟨sharedSecret, timestamp / 30⟩

/-- JSON body of a response from `/login/dologin/`, restricted to the fields
the login engine reads (spec section 6 lists exactly these).
`success` is `Option`al because `_assert_valid_credentials` subscripts
`data['success']` (KeyError when absent); the other two flags are read with
`.get` and so default to false. -/
structure LoginRespJson where
  success : Option Bool
  captcha_needed : Bool
  requires_twofactor : Bool
  transfer_parameters : Option String
  transfer_urls : Option (List String)
deriving DecidableEq, Repr

/-- The Python exceptions (and built-in error kinds) that the embedded code
can raise.  `invalidCredentials` carries the raw response,
mirroring `InvalidCredentials(str(data))` in `login.py`;
`invalidGuardCodes` is the `InvalidCredentials('Invalid Steam Guard file')`
raised in `confirmation.py`; `redirectsError` is the bare
`Exception('Cannot perform redirects after login, no parameters fetched')`;
`transportError` stands for a network-level failure (no response
available in the environment). -/
inductive PyErr where
  | captchaRequired
  | invalidCredentials (raw : LoginRespJson)
  | invalidGuardCodes
  | confirmationExpected
  | loginRequired
  | malformedGuardFile
  | keyError (key : String)
  | indexError
  | attributeError (msg : String)
  | typeError (msg : String)
  | valueError (msg : String)
  | redirectsError
  | transportError
deriving DecidableEq, Repr

/-! ## Confirmation engine (`steampy/confirmation.py`)

The HTML pages are modelled by their semantic content, i.e. exactly the
element attributes the BeautifulSoup queries in the source extract:
the `#mobileconf_empty` marker, the incorrect-guard-codes message, the
`.mobileconf_list_entry` divs with their `id`/`data-confid`/`data-key`
attributes, and — on a details page — the `id` attributes of the
`.tradeoffer` elements.

The discovery path is modelled with its two async-port bugs intact:
`_fetch_confirmations_page` (line 76) builds
`params = self._create_confirmation_params(tag)` WITHOUT awaiting it —
unlike lines 52 and 86, which await the same call — so the session GET
receives the bare coroutine object as its query parameters and aiohttp
raises TypeError while serialising the query, before any request is
sent; and `_get_confirmations` (line 64) reads `.text` off the value
`_fetch_confirmations_page` returns, which is the body `str` (despite
the `-> requests.Response` annotation), an AttributeError sitting behind
the TypeError.  The detail-fetch and allow paths await their parameters
and are modelled as working. -/

/-- One `.mobileconf_list_entry` div: its `id` attribute and the two
`data-` attributes read by `_get_confirmations`. -/
structure ListEntry where
  idAttr : String
  dataConfid : String
  dataKey : String
deriving DecidableEq, Repr

/-- Semantic content of the `/mobileconf/conf` list page. -/
structure ListPage where
  hasEmptyMarker : Bool
  badGuardMarker : Bool
  entries : List ListEntry
deriving DecidableEq, Repr

/-- Semantic content of a `/mobileconf/details/<id>` page: the `id`
attributes of its `.tradeoffer` elements (the `html` field of the JSON
body, already parsed). -/
structure DetailPage where
  tradeofferDivIds : List String
deriving DecidableEq, Repr

/-- `Confirmation.__init__`: `self.id = _id.split('conf')[1]`, raising
IndexError when `'conf'` does not occur in the id attribute. -/
structure Confirmation where
  id : String
  data_confid : String
  data_key : String
deriving DecidableEq, Repr

/-- Scanner for `pySplit`: non-overlapping occurrences of `sep`, left to
right.  The fuel argument (one more than the number of characters left)
only makes the recursion structural so that every use evaluates inside
the kernel; each step consumes at least one character, so the fuel never
runs out on the initial call. -/
def pySplitAux (sep : List Char) : Nat → List Char → List Char → List (List Char)
  | 0, rest, acc => [acc.reverse ++ rest]
  | _ + 1, [], acc => [acc.reverse]
  | fuel + 1, c :: rest, acc =>
    if sep.isPrefixOf (c :: rest) then
      acc.reverse :: pySplitAux sep fuel (List.drop (sep.length - 1) rest) []
    else pySplitAux sep fuel rest (c :: acc)

/-- Python's `str.split(sep)` for a non-empty separator: pieces between
non-overlapping occurrences of `sep` scanned left to right, with empty
pieces between adjacent occurrences and at either end. -/
def pySplit (s sep : String) : List String :=
  (pySplitAux sep.data (s.length + 1) s.data []).map List.asString

/-- The constructor `Confirmation(_id, data_confid, data_key)`;
`none` models the IndexError of `_id.split('conf')[1]`. -/
def Confirmation.ofEntry (e : ListEntry) : Option Confirmation :=
  match (pySplit e.idAttr "conf").get? 1 with
  | some s => some ⟨s, e.dataConfid, e.dataKey⟩
  | none => none

/-- The parameter dict built by `_create_confirmation_params`. -/
structure ConfParams where
  p : DeviceId
  a : String
  k : ConfKey
  t : Nat
  m : String
  tag : String
deriving DecidableEq, Repr

/-- The parameter dict sent by `_send_confirmation`: the base parameters
plus `op`, `cid`, `ck`.  In the source, `params['op'] = tag.value,` has a
trailing comma, so the value of `op` is the 1-tuple `('allow',)` rather
than the bare string; the field is therefore a list of strings, and the
query-string serialisation of `("allow",)` is the single pair `op=allow`. -/
structure AllowParams where
  base : ConfParams
  op : List String
  cid : String
  ck : String
deriving DecidableEq, Repr

/-- HTTP requests issued by the confirmation engine. -/
inductive ConfReq where
  | fetchList (url : String) (params : ConfParams)
  | fetchDetails (url : String) (params : ConfParams)
  | ajaxAllow (url : String) (params : AllowParams)
deriving DecidableEq, Repr

def ConfReq.isDetails : ConfReq → Bool
  | .fetchDetails _ _ => true
  | _ => false

def ConfReq.isAllow : ConfReq → Bool
  | .ajaxAllow _ _ => true
  | _ => false

def ConfReq.isListFetch : ConfReq → Bool
  | .fetchList _ _ => true
  | _ => false

/-- The provider-side environment of one confirmation-engine run: the list
page, and the details page served for each confirmation id. -/
structure ConfEnv where
  listPage : ListPage
  detail : String → DetailPage

/-- `ConfirmationExecutor.__init__` state (the session object is the
implicit environment/trace). -/
structure ConfirmationExecutor where
  identity_secret : String
  my_steam_id : String
deriving DecidableEq, Repr

def CONF_URL : String := "https://steamcommunity.com/mobileconf"

/-- `_create_confirmation_params(tag_string)` at wall-clock time `now`. -/
def ConfirmationExecutor.create_confirmation_params
    (ex : ConfirmationExecutor) (tagString : String) (now : Nat) : ConfParams :=
  { p := generate_device_id ex.my_steam_id
    a := ex.my_steam_id
    k := generate_confirmation_key ex.identity_secret tagString now
    t := now
    m := "android"
    tag := tagString }

/-- The value Python hands to `session.get(..., params=...)`: either an
awaited parameter dict, or — when the `await` is missing — the bare
coroutine object itself.  An un-awaited coroutine's body never runs, so
no clock is read and no signature is computed; the constructor records
only the tag argument the call was made with. -/
inductive ParamsArg where
  | dict (p : ConfParams)
  | coroutine (tagString : String)
deriving DecidableEq, Repr

/-- `self._session.get(CONF_URL + '/conf', params=..., headers=...)`:
aiohttp serialises `params` into the URL query before sending.  A
parameter dict yields one request and the provider's list-page body; a
coroutine object is not a valid query mapping, so yarl raises TypeError
and no request is issued. -/
def sessionGetConfPage (env : ConfEnv) (params : ParamsArg) :
    List ConfReq × Except PyErr ListPage :=
  match params with
  | .dict p => ([ConfReq.fetchList (CONF_URL ++ "/conf") p], .ok env.listPage)
  | .coroutine _ => ([], .error (.typeError "Invalid query type: coroutine"))

/-- `_fetch_confirmations_page`, as written: line 76 assigns
`params = self._create_confirmation_params(tag)` WITHOUT `await`, so
`params` is the coroutine object and the session GET raises TypeError
during query serialisation, before any request is sent.  The
incorrect-guard-codes check and the `return text` after it — a `str`,
though the function is annotated `-> requests.Response` — are
unreachable as written; the `.ok` payload stands for the returned body
text on which the caller's `.text` access then fails. -/
def ConfirmationExecutor.fetch_confirmations_page
    (_ex : ConfirmationExecutor) (env : ConfEnv) (_clk : Nat → Nat) (i : Nat) :
    List ConfReq × Nat × Except PyErr ListPage :=
  let params := ParamsArg.coroutine "conf"
  match sessionGetConfPage env params with
  | (tr, .error e) => (tr, i, .error e)
  | (tr, .ok page) =>
    if page.badGuardMarker then (tr, i, .error .invalidGuardCodes)
    else (tr, i, .ok page)

/-- `_get_confirmations`, as written: line 64 reads
`confirmations_page.text`, but `_fetch_confirmations_page` returns the
body `str` itself, and a `str` has no `.text` attribute — an
AttributeError sitting behind the TypeError of the fetch.  The
empty-marker check and the per-entry `Confirmation(...)` loop of lines
65-72 are unreachable; their intact logic is exercised through
`Confirmation.ofEntry` and `select_trade_offer_confirmation` in the
theorems. -/
def ConfirmationExecutor.get_confirmations
    (ex : ConfirmationExecutor) (env : ConfEnv) (clk : Nat → Nat) (i : Nat) :
    List ConfReq × Nat × Except PyErr (List Confirmation) :=
  match ex.fetch_confirmations_page env clk i with
  | (tr, i1, .error e) => (tr, i1, .error e)
  | (tr, i1, .ok _page) =>
    (tr, i1, .error (.attributeError "str object has no attribute text"))

/-- `_fetch_confirmation_details_page`: one GET of
`/mobileconf/details/<id>` signed with tag `"details" + id`. -/
def ConfirmationExecutor.fetch_confirmation_details_page
    (ex : ConfirmationExecutor) (env : ConfEnv) (clk : Nat → Nat) (i : Nat)
    (c : Confirmation) : List ConfReq × Nat × DetailPage :=
  let params := ex.create_confirmation_params ("details" ++ c.id) (clk i)
  ([ConfReq.fetchDetails (CONF_URL ++ "/details/" ++ c.id) params], i + 1, env.detail c.id)

/-- `_get_confirmation_trade_offer_id`:
`soup.select('.tradeoffer')[0]['id'].split('_')[1]`, with IndexError when
there is no `.tradeoffer` element or no `'_'` in its id. -/
def get_confirmation_trade_offer_id (page : DetailPage) : Except PyErr String :=
  match page.tradeofferDivIds with
  | [] => .error .indexError
  | fullId :: _ =>
    match (pySplit fullId "_").get? 1 with
    | some s => .ok s
    | none => .error .indexError

/-- `_select_trade_offer_confirmation`: scan the confirmations in list
order, fetch each detail page, stop at the first whose extracted trade
offer id equals the target; raise `ConfirmationExpected` after exhausting
the list. -/
def ConfirmationExecutor.select_trade_offer_confirmation
    (ex : ConfirmationExecutor) (env : ConfEnv) (clk : Nat → Nat) :
    List Confirmation → String → Nat → List ConfReq × Nat × Except PyErr Confirmation
  | [], _, i => ([], i, .error .confirmationExpected)
  | c :: rest, target, i =>
    let f := ex.fetch_confirmation_details_page env clk i c
    match get_confirmation_trade_offer_id f.2.2 with
    | .error e => (f.1, f.2.1, .error e)
    | .ok cid =>
      if cid = target then (f.1, f.2.1, .ok c)
      else
        let s := ex.select_trade_offer_confirmation env clk rest target f.2.1
        (f.1 ++ s.1, s.2.1, s.2.2)

/-- `_send_confirmation`: one GET of `/mobileconf/ajaxop` with freshly
generated tag-`"allow"` parameters plus `op`, `cid`, `ck`.  The parsed
JSON body of the response is opaque to every property below and is
modelled as `Unit`. -/
def ConfirmationExecutor.send_confirmation
    (ex : ConfirmationExecutor) (clk : Nat → Nat) (i : Nat) (c : Confirmation) :
    List ConfReq × Nat × Except PyErr Unit :=
  let params := ex.create_confirmation_params "allow" (clk i)
  let ap : AllowParams :=
    { base := params, op := ["allow"], cid := c.data_confid, ck := c.data_key }
  ([ConfReq.ajaxAllow (CONF_URL ++ "/ajaxop") ap], i + 1, .ok ())

/-- `send_trade_allow_request(trade_offer_id)`: discovery, selection, then
the allow action. -/
def ConfirmationExecutor.send_trade_allow_request
    (ex : ConfirmationExecutor) (env : ConfEnv) (clk : Nat → Nat) (target : String) :
    List ConfReq × Except PyErr Unit :=
  match ex.get_confirmations env clk 0 with
  | (tr1, _, .error e) => (tr1, .error e)
  | (tr1, i1, .ok confs) =>
    match ex.select_trade_offer_confirmation env clk confs target i1 with
    | (tr2, _, .error e) => (tr1 ++ tr2, .error e)
    | (tr2, i2, .ok c) =>
      let s := ex.send_confirmation clk i2 c
      (tr1 ++ tr2 ++ s.1, s.2.2)

/-! ## Login engine (`steampy/login.py`)

The executor's network activity is modelled by a `LoginWorld`: the streams
of provider responses still to be consumed (`keyResps` for
`/login/getrsakey/`, `loginResps` for `/login/dologin/`), the clock, the
mutable `one_time_code` attribute, a log of one-time-code generations, the
cookie jar, and the trace of issued requests. -/

/-- JSON body of a `/login/getrsakey/` response, restricted to the fields
`_fetch_rsa_params` reads; `none` models an absent key (KeyError). -/
structure KeyResp where
  publickey_mod : Option String
  publickey_exp : Option String
  timestamp : Option String
deriving DecidableEq, Repr

def hexDigit? (c : Char) : Option Nat :=
  if '0' ≤ c ∧ c ≤ '9' then some (c.toNat - '0'.toNat)
  else if 'a' ≤ c ∧ c ≤ 'f' then some (c.toNat - 'a'.toNat + 10)
  else if 'A' ≤ c ∧ c ≤ 'F' then some (c.toNat - 'A'.toNat + 10)
  else none

/-- `int(s, 16)`, restricted to plain hexadecimal digit strings (the shape
the provider sends); `none` models the uncaught ValueError. -/
def hexNat? (s : String) : Option Nat :=
  if s.isEmpty then none
  else s.data.foldlM (fun acc c => (hexDigit? c).map (fun d => acc * 16 + d)) 0

/-- Result of the `try` block of `_fetch_rsa_params`: the parsed values, a
KeyError (caught by the `except KeyError`), or a ValueError from
`int(..., 16)` (not caught).  The fields are read in source order
`publickey_mod`, `publickey_exp`, `timestamp`. -/
inductive KeyRespParse where
  | parsed (rsaMod rsaExp : Nat) (timestamp : String)
  | keyErrorK
  | valueErrorK
deriving DecidableEq, Repr

def parse_key_response (r : KeyResp) : KeyRespParse :=
  match r.publickey_mod with
  | none => .keyErrorK
  | some ms =>
    match hexNat? ms with
    | none => .valueErrorK
    | some mn =>
      match r.publickey_exp with
      | none => .keyErrorK
      | some es =>
        match hexNat? es with
        | none => .valueErrorK
        | some en =>
          match r.timestamp with
          | none => .keyErrorK
          | some ts => .parsed mn en ts

/-- The value the caller obtains from `await self._fetch_rsa_params()`.
`dict` is the `{'rsa_key': ..., 'rsa_timestamp': ...}` return value;
`task` is the value of the retry branch, which in the source is
`return asyncio.ensure_future(self._fetch_rsa_params(n + 1))` — an
`asyncio.Task` object returned WITHOUT awaiting it, wrapping the outcome
the retry will eventually produce (never observed by the caller);
`raised` is an exception propagating out of the coroutine. -/
inductive RsaFetchOutcome where
  | dict (rsaMod rsaExp : Nat) (rsaTimestamp : String)
  | task (inner : RsaFetchOutcome)
  | raised (e : PyErr)
deriving DecidableEq, Repr

/-- `_fetch_rsa_params(current_number_of_repetitions)`, consuming the
stream of key responses in order (an exhausted stream models a network
failure). -/
def fetch_rsa_params : List KeyResp → Nat → RsaFetchOutcome
  | [], _ => .raised .transportError
  | r :: rest, n =>
    match parse_key_response r with
    | .parsed mn en ts => .dict mn en ts
    | .valueErrorK => .raised (.valueError "invalid literal for int with base 16")
    | .keyErrorK =>
      if n < 5 then .task (fetch_rsa_params rest (n + 1))
      else .raised (.valueError "Could not obtain rsa-key")

/-- Number of `/login/getrsakey/` POSTs the call chain performs (the
scheduled retry tasks do run and issue their requests). -/
def rsa_fetch_consumed : List KeyResp → Nat → Nat
  | [], _ => 0
  | r :: rest, n =>
    match parse_key_response r with
    | .keyErrorK => if n < 5 then 1 + rsa_fetch_consumed rest (n + 1) else 1
    | _ => 1

/-- `_encrypt_password`: base64 of the PKCS#1 v1.5 RSA encryption of the
password under the fetched key — performed by the external `rsa` library.
The ciphertext is opaque downstream (nothing compares or decodes it), so
it is represented by its determining inputs; the random padding is
irrelevant for the same reason. -/
structure EncPw where
  password : String
  rsaMod : Nat
  rsaExp : Nat
deriving DecidableEq, Repr

/-- The form data built by `_prepare_login_request_data`, with the literal
constant fields of the source. -/
structure LoginRequestData where
  password : EncPw
  username : String
  twofactorcode : Option Otp
  emailauth : String
  loginfriendlyname : String
  captchagid : String
  captcha_text : String
  emailsteamid : String
  rsatimestamp : String
  remember_login : String
  donotcache : Nat
deriving DecidableEq, Repr

/-- HTTP requests issued by the login engine. -/
inductive LReq where
  | postGetRsaKey (username : String)
  | postDoLogin (data : LoginRequestData)
  | postTransfer (url : String) (payload : String)
deriving DecidableEq, Repr

def LReq.isDoLogin : LReq → Bool
  | .postDoLogin _ => true
  | _ => false

def LReq.isTransfer : LReq → Bool
  | .postTransfer _ _ => true
  | _ => false

/-- The aiohttp cookie jar, restricted to the only cookie the code touches:
entries `(domain, sessionid value)`, most recent first (an update for a
domain shadows older entries). -/
def Jar := List (String × String)

def jarLookup (jar : Jar) (domain : String) : Option String :=
  (List.find? (fun e => e.1 == domain) jar).map Prod.snd

/-- `cookie_jar.update_cookies({'sessionid': v}, response_url=URL(domain))`,
keyed by the domain string handed to `URL`.  (yarl parses the scheme-less
string as a host-less relative URL, which makes aiohttp file the cookie as
a shared cookie sent to every host; under either reading the cookie is
presented to requests for `domain` with value `v`, which is what the
properties below state.) -/
def jarSet (jar : Jar) (domain v : String) : Jar :=
  (domain, v) :: jar

def COMMUNITY_URL : String := "https://steamcommunity.com"

def STORE_URL : String := "https://store.steampowered.com"

/-- `LoginExecutor.__init__` immutable inputs; the mutable
`one_time_code` attribute lives in `LoginWorld`. -/
structure LoginExecutor where
  username : String
  password : String
  shared_secret : String
deriving DecidableEq, Repr

/-- State of one login run: provider response streams yet to be consumed,
the clock, the executor's mutable `one_time_code`, a log of one-time-code
generations, the cookie jar (cookies set by the provider during the run
are part of the initial jar; the model's requests do not alter it), and
the trace of issued requests. -/
structure LoginWorld where
  keyResps : List KeyResp
  loginResps : List LoginRespJson
  clk : Nat → Nat
  tick : Nat
  oneTimeCode : Option Otp
  otpGens : List Otp
  jar : Jar
  trace : List LReq

/-- `_prepare_login_request_data(encrypted_password, rsa_timestamp)` at
wall-clock time `now`; `twofactorcode` is `self.one_time_code`
(`none` models the initial empty string). -/
def LoginExecutor.prepare_login_request_data (le : LoginExecutor) (enc : EncPw)
    (rsaTs : String) (otc : Option Otp) (now : Nat) : LoginRequestData :=
  { password := enc
    username := le.username
    twofactorcode := otc
    emailauth := ""
    loginfriendlyname := ""
    captchagid := "-1"
    captcha_text := ""
    emailsteamid := ""
    rsatimestamp := rsaTs
    remember_login := "false"
    donotcache := now * 1000 }

/-- `_send_login_request`: fetch RSA params, encrypt the password, POST the
prepared form to `/login/dologin/`.  When `_fetch_rsa_params` returns its
un-awaited retry Task, `_encrypt_password` subscripts it
(`rsa_params['rsa_key']`) and raises TypeError. -/
def LoginExecutor.send_login_request (le : LoginExecutor) (w : LoginWorld) :
    Except PyErr LoginRespJson × LoginWorld :=
  let outcome := fetch_rsa_params w.keyResps 0
  let n := rsa_fetch_consumed w.keyResps 0
  let w1 : LoginWorld :=
    { w with keyResps := w.keyResps.drop n,
             trace := w.trace ++ List.replicate n (LReq.postGetRsaKey le.username) }
  match outcome with
  | .raised e => (.error e, w1)
  | .task _ => (.error (.typeError "Task object is not subscriptable"), w1)
  | .dict mn en ts =>
    let enc : EncPw := ⟨le.password, mn, en⟩
    let data := le.prepare_login_request_data enc ts w1.oneTimeCode (w1.clk w1.tick)
    let w2 : LoginWorld :=
      { w1 with tick := w1.tick + 1, trace := w1.trace ++ [LReq.postDoLogin data] }
    match w2.loginResps with
    | [] => (.error .transportError, w2)
    | r :: rs => (.ok r, { w2 with loginResps := rs })

/-- `_check_for_captcha`. -/
def check_for_captcha (r : LoginRespJson) : Except PyErr Unit :=
  if r.captcha_needed then .error .captchaRequired else .ok ()

/-- `_enter_steam_guard_if_necessary`: on `requires_twofactor`, generate a
one-time code from the shared secret (logged in `otpGens`), store it in
`one_time_code`, and resubmit once via `_send_login_request`; otherwise
return the response unchanged. -/
def LoginExecutor.enter_steam_guard_if_necessary (le : LoginExecutor)
    (r : LoginRespJson) (w : LoginWorld) : Except PyErr LoginRespJson × LoginWorld :=
  if r.requires_twofactor then
    let code := generate_one_time_code le.shared_secret (w.clk w.tick)
    le.send_login_request
      { w with tick := w.tick + 1, oneTimeCode := some code, otpGens := w.otpGens ++ [code] }
  else (.ok r, w)

/-- `_assert_valid_credentials`: `data['success']` (KeyError when absent);
falsy success raises `InvalidCredentials(str(data))`, carrying the raw
response. -/
def assert_valid_credentials (r : LoginRespJson) : Except PyErr Unit :=
  match r.success with
  | none => .error (.keyError "success")
  | some s => if s then .ok () else .error (.invalidCredentials r)

/-- `_perform_redirects`: missing `transfer_parameters` raises the bare
`Exception`; otherwise the same payload is POSTed to each
`transfer_urls` entry in order (the bodies are read and discarded). -/
def perform_redirects (r : LoginRespJson) (w : LoginWorld) :
    Except PyErr Unit × LoginWorld :=
  match r.transfer_parameters with
  | none => (.error .redirectsError, w)
  | some payload =>
    match r.transfer_urls with
    | none => (.error (.keyError "transfer_urls"), w)
    | some urls =>
      (.ok (), { w with trace := w.trace ++ urls.map (fun u => .postTransfer u payload) })

/-- `set_sessionid_cookies`: read the sessionid cookie filed under the
`help.steampowered.com` origin (`_cookies` is a defaultdict, so a missing
domain yields an empty cookie set and the `['sessionid']` subscript raises
KeyError), then re-set it for `COMMUNITY_URL[8:]` and `STORE_URL[8:]`. -/
def set_sessionid_cookies (w : LoginWorld) : Except PyErr Unit × LoginWorld :=
  match jarLookup w.jar "help.steampowered.com" with
  | none => (.error (.keyError "sessionid"), w)
  | some v =>
    let communityDomain := COMMUNITY_URL.drop 8
    let storeDomain := STORE_URL.drop 8
    (.ok (), { w with jar := jarSet (jarSet w.jar communityDomain v) storeDomain v })

/-- The suffix of `LoginExecutor.login` after the steam-guard step:
credential check on the (possibly resubmitted) response, redirects,
cookie normalisation.  Named separately only to factor the proofs; the
composition below is line-for-line the source's `login`. -/
def login_tail (r2 : LoginRespJson) (w2 : LoginWorld) :
    Except PyErr Unit × LoginWorld :=
  match assert_valid_credentials r2 with
  | .error e => (.error e, w2)
  | .ok _ =>
    match perform_redirects r2 w2 with
    | (.error e, w3) => (.error e, w3)
    | (.ok _, w3) => set_sessionid_cookies w3

/-- `LoginExecutor.login`: submit, captcha check, 2FA resubmission if
required, credential check, redirects, cookie normalisation. -/
def LoginExecutor.login (le : LoginExecutor) (w : LoginWorld) :
    Except PyErr Unit × LoginWorld :=
  match le.send_login_request w with
  | (.error e, w1) => (.error e, w1)
  | (.ok r1, w1) =>
    match check_for_captcha r1 with
    | .error e => (.error e, w1)
    | .ok _ =>
      match le.enter_steam_guard_if_necessary r1 w1 with
      | (.error e, w2) => (.error e, w2)
      | (.ok r2, w2) => login_tail r2 w2

/-! ## Client (`steampy/client.py`) -/

/-- The three fields of the loaded steam-guard bundle that the client
reads (`shared_secret`, `identity_secret`, `steamid`). -/
structure GuardSecrets where
  steamid : String
  shared_secret : String
  identity_secret : String
deriving DecidableEq, Repr

/-- A guard descriptor before loading; `none` models a missing field. -/
structure GuardFile where
  steamid : Option String
  shared_secret : Option String
  identity_secret : Option String
deriving DecidableEq, Repr

def isBase32 (s : String) : Bool :=
  s.data.all fun c =>
    decide (('A' ≤ c ∧ c ≤ 'Z') ∨ ('2' ≤ c ∧ c ≤ '7') ∨ c = '=')

/-- Modelled from the spec: `guard.load_steam_guard` is missing from the
sources.  Per the spec (section 6) loading fails with `MalformedGuardFile`
when any of the three fields is missing or its secret is not valid
base-alphabet data. -/
def load_steam_guard (g : GuardFile) : Except PyErr GuardSecrets :=
  match g.steamid, g.shared_secret, g.identity_secret with
  | some sid, some sh, some idn =>
    if isBase32 sh && isBase32 idn then .ok ⟨sid, sh, idn⟩
    else .error .malformedGuardFile
  | _, _, _ => .error .malformedGuardFile

/-- The client attributes touched by the properties below
(`__init__` sets `was_login_executed = False` and the rest to `None`). -/
structure SteamClient where
  was_login_executed : Bool
  steam_guard : Option GuardSecrets
  username : Option String
deriving DecidableEq, Repr

/-- HTTP requests issued by client operations. -/
inductive CReq where
  | get (url : String)
  | post (url : String)
deriving DecidableEq, Repr

/-- The `login_required` decorator: raise `LoginRequired('Use login method
first')` before calling the wrapped coroutine (so no request of the
wrapped body is issued) unless `was_login_executed` is set. -/
def login_required {α : Type} (func : SteamClient → List CReq × Except PyErr α)
    (st : SteamClient) : List CReq × Except PyErr α :=
  if st.was_login_executed then func st else ([], .error .loginRequired)

/-- `SteamClient.get_trade_receipt` — NOT decorated with `login_required`
in the source: it issues its GET unconditionally.  The `texts_between`
body parsing (from the absent `utils.py`) is irrelevant to the properties
below, so the fetched body is returned as is. -/
def SteamClient.get_trade_receipt (_st : SteamClient) (tradeId : String)
    (body : String) : List CReq × Except PyErr String :=
  ([CReq.get ("https://steamcommunity.com/trade/" ++ tradeId ++ "/receipt")], .ok body)

/-- `SteamClient.login`: load the guard bundle, set `steam_guard` and
`username`, run the login executor, and only after it returns set
`was_login_executed = True`. -/
def SteamClient.login (st : SteamClient) (g : GuardFile) (username password : String)
    (w : LoginWorld) : Except PyErr Unit × SteamClient × LoginWorld :=
  match load_steam_guard g with
  | .error e => (.error e, st, w)
  | .ok gs =>
    let st1 : SteamClient := { st with steam_guard := some gs, username := some username }
    let le : LoginExecutor := ⟨username, password, gs.shared_secret⟩
    match le.login w with
    | (.error e, w1) => (.error e, st1, w1)
    | (.ok _, w1) => (.ok (), { st1 with was_login_executed := true }, w1)

/-! ## Statement helpers and concrete inputs -/

/-- The detail-fetch requests that scanning `confs` from clock tick `i`
produces, in list order (specification helper for the select loop). -/
def ConfirmationExecutor.details_trace (ex : ConfirmationExecutor) (clk : Nat → Nat) :
    List Confirmation → Nat → List ConfReq
  | [], _ => []
  | c :: rest, i =>
    ConfReq.fetchDetails (CONF_URL ++ "/details/" ++ c.id)
        (ex.create_confirmation_params ("details" ++ c.id) (clk i))
      :: ex.details_trace clk rest (i + 1)

/-- The business identifier the engine extracts for a confirmation: the
detail page served for its id, run through
`_get_confirmation_trade_offer_id`. -/
def extractedId (env : ConfEnv) (c : Confirmation) : Except PyErr String :=
  get_confirmation_trade_offer_id (env.detail c.id)

/-- A provider whose confirmation list page carries the
`#mobileconf_empty` marker. -/
def emptyListEnv : ConfEnv :=
  { listPage := { hasEmptyMarker := true, badGuardMarker := false, entries := [] }
    detail := fun _ => { tradeofferDivIds := [] } }

/-- A provider with three pending confirmations whose detail pages embed
the trade-offer ids `A`, `B`, `C` in list order. -/
def threeEnv : ConfEnv :=
  { listPage :=
      { hasEmptyMarker := false
        badGuardMarker := false
        entries := [⟨"conf1", "cid1", "ck1"⟩, ⟨"conf2", "cid2", "ck2"⟩,
                    ⟨"conf3", "cid3", "ck3"⟩] }
    detail := fun cid =>
      if cid = "1" then ⟨["tradeoffer_A"]⟩
      else if cid = "2" then ⟨["tradeoffer_B"]⟩
      else ⟨["tradeoffer_C"]⟩ }

/-- A well-formed RSA key response. -/
def kGood : KeyResp := ⟨some "ff", some "11", some "TS"⟩

/-- An RSA key response in the provider's error shape (no key fields). -/
def kBad : KeyResp := ⟨none, none, none⟩

/-- A fully successful `dologin` response. -/
def rOk : LoginRespJson :=
  ⟨some true, false, false, some "payload", some ["https://help.steampowered.com/tx"]⟩

/-- A `dologin` response demanding two-factor authentication. -/
def rTwoFactor : LoginRespJson := ⟨some false, false, true, none, none⟩

/-- A `dologin` response with a false success flag and no other signal. -/
def rBad : LoginRespJson := ⟨some false, false, false, none, none⟩

/-- An initial login world over the given response streams, with the
sessionid cookie the provider filed for `help.steampowered.com` during
the redirects. -/
def mkWorld (kr : List KeyResp) (lr : List LoginRespJson) : LoginWorld :=
  { keyResps := kr
    loginResps := lr
    clk := fun t => 100 + 30 * t
    tick := 0
    oneTimeCode := none
    otpGens := []
    jar := [("help.steampowered.com", "SESSID")]
    trace := [] }

/-- A fresh client (`was_login_executed = False`). -/
def freshClient : SteamClient := ⟨false, none, none⟩

/-- A complete guard descriptor. -/
def gFile : GuardFile := ⟨some "7656", some "ABCD2345", some "EFGH6734"⟩

/-! ## Claim C1 -/

/-- Claim C1, code-bug evidence: with the empty-list marker present, the
operation never returns the claimed `NoPendingConfirmations` empty
success result — it raises TypeError at the list fetch (the un-awaited
`_create_confirmation_params` coroutine is passed as query parameters)
with no request issued at all (first conjunct); and even the intended
control flow would not produce a distinct outcome, because the selection
step run on an empty discovery result falls through to
`ConfirmationExpected`, the very not-found error the claim says the
empty case is distinct from (second conjunct). -/
theorem empty_marker_operation_crashes :
    ConfirmationExecutor.send_trade_allow_request ⟨"identsec", "7656"⟩ emptyListEnv
        (fun _ => 100) "123" =
      ([], .error (.typeError "Invalid query type: coroutine")) ∧
    ConfirmationExecutor.select_trade_offer_confirmation ⟨"identsec", "7656"⟩ emptyListEnv
        (fun _ => 100) [] "123" 1 =
      ([], 1, .error .confirmationExpected) :=
  ⟨rfl, rfl⟩

/-! ## Claim C7 -/

/-- Claim C7, counterexample: `get_trade_receipt` is not decorated with
`login_required` in the source; invoked on a client that never logged in,
it issues its GET to the provider and does not raise the not-logged-in
error. -/
theorem get_trade_receipt_unguarded :
    freshClient.was_login_executed = false ∧
    SteamClient.get_trade_receipt freshClient "42" "<html>" =
      ([CReq.get "https://steamcommunity.com/trade/42/receipt"], .ok "<html>") :=
  ⟨rfl, rfl⟩

/-- Claim C7 (amended): every operation decorated with `login_required`
fails fast with the not-logged-in error — issuing none of its requests —
when invoked before a successful login; `get_trade_receipt`, however, is
not decorated and issues its request regardless. -/
theorem login_required_fails_fast (α : Type) (func : SteamClient → List CReq × Except PyErr α)
    (st : SteamClient) (h : st.was_login_executed = false) :
    login_required func st = ([], .error .loginRequired) := by
  simp [login_required, h]

/-- Claim C7 (amended), witness at a concrete wrapped operation. -/
theorem login_required_fails_fast_witness :
    login_required (fun _ => ([], Except.ok "body")) freshClient =
      ([], .error .loginRequired) :=
  login_required_fails_fast String (fun _ => ([], Except.ok "body")) freshClient rfl

/-! ## Claim C5 -/

/-- Claim C5, code-bug evidence.  A well-formed response is parsed and
returned after a single fetch (last conjunct), but the retry branch
returns `asyncio.ensure_future(...)` — an un-awaited Task — to the
caller: after one malformed response followed by a well-formed one the
caller receives a Task wrapping the dict rather than the dict, and
`_send_login_request` then dies with TypeError when `_encrypt_password`
subscripts it; with every response malformed, the
`ValueError('Could not obtain rsa-key')` raised after the five retries
stays buried inside the innermost orphaned task. -/
theorem fetch_rsa_params_retry_task_bug :
    fetch_rsa_params [kBad, kGood] 0 = .task (.dict 255 17 "TS") ∧
    fetch_rsa_params [kBad, kBad, kBad, kBad, kBad, kBad] 0 =
      .task (.task (.task (.task (.task
        (.raised (.valueError "Could not obtain rsa-key")))))) ∧
    (∀ (le : LoginExecutor) (w : LoginWorld), w.keyResps = [kBad, kGood] →
      (le.send_login_request w).1 =
        .error (.typeError "Task object is not subscriptable")) ∧
    (∀ (r : KeyResp) (rest : List KeyResp) (mn en : Nat) (ts : String) (n : Nat),
      parse_key_response r = .parsed mn en ts →
      fetch_rsa_params (r :: rest) n = .dict mn en ts ∧
      rsa_fetch_consumed (r :: rest) n = 1) := by
  refine ⟨by rfl, by rfl, ?_, ?_⟩
  · intro le w hw
    have hf : fetch_rsa_params w.keyResps 0 = .task (.dict 255 17 "TS") := by
      rw [hw]; rfl
    simp [LoginExecutor.send_login_request, hf]
  · intro r rest mn en ts n hpr
    constructor
    · simp [fetch_rsa_params, hpr]
    · simp [rsa_fetch_consumed, hpr]

/-- Claim C5, witness for the hypothesised conjuncts at concrete inputs. -/
theorem fetch_rsa_params_retry_task_bug_witness :
    ((LoginExecutor.mk "u" "p" "sec").send_login_request (mkWorld [kBad, kGood] [])).1 =
      .error (.typeError "Task object is not subscriptable") ∧
    fetch_rsa_params [kGood] 3 = .dict 255 17 "TS" ∧
    rsa_fetch_consumed [kGood] 3 = 1 := by
  have h := fetch_rsa_params_retry_task_bug
  exact ⟨h.2.2.1 (LoginExecutor.mk "u" "p" "sec") (mkWorld [kBad, kGood] []) rfl,
    (h.2.2.2 kGood [] 255 17 "TS" 3 rfl).1, (h.2.2.2 kGood [] 255 17 "TS" 3 rfl).2⟩

/-! ## Claim C9 -/

/-- Claim C9: when `transfer_parameters` is absent the redirect step fails
with the redirect-setup error and POSTs to no transfer URL; when present,
the same payload is POSTed to each transfer URL in the order given by the
response. -/
theorem perform_redirects_spec (r : LoginRespJson) (w : LoginWorld) :
    (r.transfer_parameters = none →
      (perform_redirects r w).1 = .error .redirectsError ∧
      (perform_redirects r w).2.trace = w.trace) ∧
    (∀ (payload : String) (urls : List String),
      r.transfer_parameters = some payload → r.transfer_urls = some urls →
      (perform_redirects r w).1 = .ok () ∧
      (perform_redirects r w).2.trace =
        w.trace ++ urls.map (fun u => LReq.postTransfer u payload)) := by
  constructor
  · intro h
    simp [perform_redirects, h]
  · intro payload urls h1 h2
    simp [perform_redirects, h1, h2]

/-- Claim C9, witness: both branches at concrete responses. -/
theorem perform_redirects_spec_witness :
    (perform_redirects rBad (mkWorld [] [])).1 = .error .redirectsError ∧
    (perform_redirects rBad (mkWorld [] [])).2.trace = [] ∧
    (perform_redirects rOk (mkWorld [] [])).1 = .ok () ∧
    (perform_redirects rOk (mkWorld [] [])).2.trace =
      [LReq.postTransfer "https://help.steampowered.com/tx" "payload"] := by
  have h1 := (perform_redirects_spec rBad (mkWorld [] [])).1 rfl
  have h2 := (perform_redirects_spec rOk (mkWorld [] [])).2 "payload"
    ["https://help.steampowered.com/tx"] rfl rfl
  exact ⟨h1.1, h1.2, h2.1, h2.2⟩

/-! ## Lemmas about the login engine -/

theorem send_login_request_of_good_key
    (le : LoginExecutor) (w : LoginWorld) (k : KeyResp) (krest : List KeyResp)
    (r : LoginRespJson) (lrest : List LoginRespJson)
    (mn en : Nat) (ts : String)
    (hk : w.keyResps = k :: krest)
    (hkp : parse_key_response k = .parsed mn en ts)
    (hl : w.loginResps = r :: lrest) :
    le.send_login_request w =
      (.ok r,
       { w with keyResps := krest,
                loginResps := lrest,
                tick := w.tick + 1,
                trace := w.trace ++ [LReq.postGetRsaKey le.username,
                  LReq.postDoLogin (le.prepare_login_request_data ⟨le.password, mn, en⟩ ts
                    w.oneTimeCode (w.clk w.tick))] }) := by
  have hf : fetch_rsa_params (k :: krest) 0 = .dict mn en ts := by
    simp [fetch_rsa_params, hkp]
  have hn : rsa_fetch_consumed (k :: krest) 0 = 1 := by
    simp [rsa_fetch_consumed, hkp]
  simp [LoginExecutor.send_login_request, hk, hl, hf, hn]

/-! ## Claim C8 -/

/-- Claim C8: a login response whose success flag is false, with neither a
captcha nor a two-factor signal, makes the engine fail with
`InvalidCredentials` carrying the raw response data; the trace shows no
second credential submission (and no transfer POST), and no one-time code
is generated. -/
theorem invalid_credentials_no_resubmit
    (le : LoginExecutor) (w : LoginWorld) (k : KeyResp) (krest : List KeyResp)
    (r1 : LoginRespJson) (lrest : List LoginRespJson)
    (mn en : Nat) (ts : String)
    (hk : w.keyResps = k :: krest)
    (hkp : parse_key_response k = .parsed mn en ts)
    (hl : w.loginResps = r1 :: lrest)
    (hc : r1.captcha_needed = false)
    (h2 : r1.requires_twofactor = false)
    (hs : r1.success = some false) :
    (le.login w).1 = .error (.invalidCredentials r1) ∧
    (le.login w).2.trace = w.trace ++ [LReq.postGetRsaKey le.username,
      LReq.postDoLogin (le.prepare_login_request_data ⟨le.password, mn, en⟩ ts
        w.oneTimeCode (w.clk w.tick))] ∧
    (le.login w).2.otpGens = w.otpGens := by
  have hsend := send_login_request_of_good_key le w k krest r1 lrest mn en ts hk hkp hl
  have hlogin : le.login w =
      (.error (.invalidCredentials r1), (le.send_login_request w).2) := by
    simp only [LoginExecutor.login, hsend, check_for_captcha, hc, h2, Bool.false_eq_true,
      if_false, LoginExecutor.enter_steam_guard_if_necessary, login_tail,
      assert_valid_credentials, hs]
  rw [hlogin, hsend]
  exact ⟨rfl, rfl, rfl⟩

/-- Claim C8, witness at a concrete failed-credentials response. -/
theorem invalid_credentials_no_resubmit_witness :
    ((LoginExecutor.mk "u" "p" "sec").login (mkWorld [kGood] [rBad])).1 =
      .error (.invalidCredentials rBad) ∧
    ((LoginExecutor.mk "u" "p" "sec").login (mkWorld [kGood] [rBad])).2.otpGens = [] := by
  have h := invalid_credentials_no_resubmit (LoginExecutor.mk "u" "p" "sec")
    (mkWorld [kGood] [rBad]) kGood [] rBad [] 255 17 "TS" rfl rfl rfl rfl rfl rfl
  exact ⟨h.1, h.2.2⟩

theorem perform_redirects_world (r : LoginRespJson) (w : LoginWorld) :
    (perform_redirects r w).2.otpGens = w.otpGens ∧
    (perform_redirects r w).2.oneTimeCode = w.oneTimeCode ∧
    (perform_redirects r w).2.jar = w.jar ∧
    (perform_redirects r w).2.trace.filter LReq.isDoLogin =
      w.trace.filter LReq.isDoLogin := by
  unfold perform_redirects
  cases htp : r.transfer_parameters with
  | none => exact ⟨rfl, rfl, rfl, rfl⟩
  | some payload =>
    cases htu : r.transfer_urls with
    | none => exact ⟨rfl, rfl, rfl, rfl⟩
    | some urls =>
      refine ⟨rfl, rfl, rfl, ?_⟩
      simp [List.filter_append, List.filter_map, Function.comp, LReq.isDoLogin]

theorem set_sessionid_cookies_world (w : LoginWorld) :
    (set_sessionid_cookies w).2.otpGens = w.otpGens ∧
    (set_sessionid_cookies w).2.oneTimeCode = w.oneTimeCode ∧
    (set_sessionid_cookies w).2.trace = w.trace := by
  unfold set_sessionid_cookies
  cases jarLookup w.jar "help.steampowered.com" <;> exact ⟨rfl, rfl, rfl⟩

theorem login_tail_world (r : LoginRespJson) (w : LoginWorld) :
    (login_tail r w).2.otpGens = w.otpGens ∧
    (login_tail r w).2.oneTimeCode = w.oneTimeCode ∧
    (login_tail r w).2.trace.filter LReq.isDoLogin =
      w.trace.filter LReq.isDoLogin := by
  unfold login_tail
  split
  · exact ⟨rfl, rfl, rfl⟩
  · split
    · rename_i e w3 heq
      have h := perform_redirects_world r w
      rw [heq] at h
      exact ⟨h.1, h.2.1, h.2.2.2⟩
    · rename_i a w3 heq
      have h := perform_redirects_world r w
      rw [heq] at h
      have h2 := set_sessionid_cookies_world w3
      exact ⟨h2.1.trans h.1, h2.2.1.trans h.2.1, by rw [h2.2.2]; exact h.2.2.2⟩

theorem login_tail_of_assert_error (r : LoginRespJson) (w : LoginWorld) (e : PyErr)
    (h : assert_valid_credentials r = .error e) : login_tail r w = (.error e, w) := by
  simp [login_tail, h]

/-! ## Claim C4 -/

/-- Claim C4: a first login response demanding two-factor authentication
(and no captcha) makes the engine generate exactly one fresh one-time
code from the shared secret and resubmit the credentials exactly once —
the resubmission carrying the fresh code — before re-evaluating the new
response; a response without the flag triggers no code generation and no
resubmission. -/
theorem twofactor_single_resubmission
    (le : LoginExecutor) (w : LoginWorld)
    (k1 k2 : KeyResp) (krest : List KeyResp)
    (r1 r2 : LoginRespJson) (lrest : List LoginRespJson)
    (m1 e1 m2 e2 : Nat) (t1 t2 : String)
    (hk : w.keyResps = k1 :: k2 :: krest)
    (hk1 : parse_key_response k1 = .parsed m1 e1 t1)
    (hk2 : parse_key_response k2 = .parsed m2 e2 t2)
    (hl : w.loginResps = r1 :: r2 :: lrest)
    (hc : r1.captcha_needed = false) :
    (r1.requires_twofactor = true →
      (le.login w).2.otpGens =
        w.otpGens ++ [generate_one_time_code le.shared_secret (w.clk (w.tick + 1))] ∧
      (∃ d1 d2 : LoginRequestData,
        (le.login w).2.trace.filter LReq.isDoLogin =
          w.trace.filter LReq.isDoLogin ++ [LReq.postDoLogin d1, LReq.postDoLogin d2] ∧
        d1.twofactorcode = w.oneTimeCode ∧
        d2.twofactorcode =
          some (generate_one_time_code le.shared_secret (w.clk (w.tick + 1)))) ∧
      (∀ e, assert_valid_credentials r2 = .error e → (le.login w).1 = .error e)) ∧
    (r1.requires_twofactor = false →
      (le.login w).2.otpGens = w.otpGens ∧
      (le.login w).2.oneTimeCode = w.oneTimeCode ∧
      (∃ d1 : LoginRequestData,
        (le.login w).2.trace.filter LReq.isDoLogin =
          w.trace.filter LReq.isDoLogin ++ [LReq.postDoLogin d1])) := by
  have hsend1 := send_login_request_of_good_key le w k1 (k2 :: krest) r1 (r2 :: lrest)
    m1 e1 t1 hk hk1 hl
  constructor
  · intro h2f
    have hW1 := send_login_request_of_good_key le
      { keyResps := k2 :: krest, loginResps := r2 :: lrest, clk := w.clk,
        tick := w.tick + 1 + 1,
        oneTimeCode := some (generate_one_time_code le.shared_secret (w.clk (w.tick + 1))),
        otpGens := w.otpGens ++ [generate_one_time_code le.shared_secret (w.clk (w.tick + 1))],
        jar := w.jar,
        trace := w.trace ++ [LReq.postGetRsaKey le.username,
          LReq.postDoLogin (le.prepare_login_request_data ⟨le.password, m1, e1⟩ t1
            w.oneTimeCode (w.clk w.tick))] }
      k2 krest r2 lrest m2 e2 t2 rfl hk2 rfl
    have key : le.login w = login_tail r2
        { keyResps := krest, loginResps := lrest, clk := w.clk,
          tick := w.tick + 1 + 1 + 1,
          oneTimeCode := some (generate_one_time_code le.shared_secret (w.clk (w.tick + 1))),
          otpGens := w.otpGens ++
            [generate_one_time_code le.shared_secret (w.clk (w.tick + 1))],
          jar := w.jar,
          trace := (w.trace ++ [LReq.postGetRsaKey le.username,
              LReq.postDoLogin (le.prepare_login_request_data ⟨le.password, m1, e1⟩ t1
                w.oneTimeCode (w.clk w.tick))]) ++
            [LReq.postGetRsaKey le.username,
             LReq.postDoLogin (le.prepare_login_request_data ⟨le.password, m2, e2⟩ t2
               (some (generate_one_time_code le.shared_secret (w.clk (w.tick + 1))))
               (w.clk (w.tick + 1 + 1)))] } := by
      simp only [LoginExecutor.login, hsend1, check_for_captcha, hc, Bool.false_eq_true,
        if_false, LoginExecutor.enter_steam_guard_if_necessary, h2f, if_true, hW1]
    refine ⟨?_, ?_, ?_⟩
    · rw [key, (login_tail_world _ _).1]
    · refine ⟨le.prepare_login_request_data ⟨le.password, m1, e1⟩ t1
          w.oneTimeCode (w.clk w.tick),
        le.prepare_login_request_data ⟨le.password, m2, e2⟩ t2
          (some (generate_one_time_code le.shared_secret (w.clk (w.tick + 1))))
          (w.clk (w.tick + 1 + 1)), ?_, rfl, rfl⟩
      rw [key, (login_tail_world _ _).2.2]
      simp [List.filter_append, LReq.isDoLogin]
    · intro e he
      rw [key, login_tail_of_assert_error r2 _ e he]
  · intro h2f
    have key : le.login w = login_tail r1 (le.send_login_request w).2 := by
      simp only [LoginExecutor.login, hsend1, check_for_captcha, hc, Bool.false_eq_true,
        if_false, LoginExecutor.enter_steam_guard_if_necessary, h2f]
    refine ⟨?_, ?_, ?_⟩
    · rw [key, (login_tail_world _ _).1, hsend1]
    · rw [key, (login_tail_world _ _).2.1, hsend1]
    · refine ⟨le.prepare_login_request_data ⟨le.password, m1, e1⟩ t1
          w.oneTimeCode (w.clk w.tick), ?_⟩
      rw [key, (login_tail_world _ _).2.2, hsend1]
      simp [List.filter_append, LReq.isDoLogin]

/-- Claim C4, witness: both branches at concrete response streams. -/
theorem twofactor_single_resubmission_witness :
    ((LoginExecutor.mk "u" "p" "sec").login
        (mkWorld [kGood, kGood] [rTwoFactor, rBad])).2.otpGens =
      [generate_one_time_code "sec" 130] ∧
    ((LoginExecutor.mk "u" "p" "sec").login
        (mkWorld [kGood, kGood] [rOk, rBad])).2.otpGens = [] := by
  have hA := (twofactor_single_resubmission (LoginExecutor.mk "u" "p" "sec")
    (mkWorld [kGood, kGood] [rTwoFactor, rBad]) kGood kGood [] rTwoFactor rBad []
    255 17 255 17 "TS" "TS" rfl rfl rfl rfl rfl).1 rfl
  have hB := (twofactor_single_resubmission (LoginExecutor.mk "u" "p" "sec")
    (mkWorld [kGood, kGood] [rOk, rBad]) kGood kGood [] rOk rBad []
    255 17 255 17 "TS" "TS" rfl rfl rfl rfl rfl).2 rfl
  exact ⟨hA.1, hB.1⟩

theorem send_login_request_jar (le : LoginExecutor) (w : LoginWorld) :
    (le.send_login_request w).2.jar = w.jar := by
  simp only [LoginExecutor.send_login_request]
  split
  · rfl
  · rfl
  · split <;> rfl

theorem enter_steam_guard_jar (le : LoginExecutor) (r : LoginRespJson) (w : LoginWorld) :
    (le.enter_steam_guard_if_necessary r w).2.jar = w.jar := by
  unfold LoginExecutor.enter_steam_guard_if_necessary
  split
  · rw [send_login_request_jar]
  · rfl

theorem login_ok_inversion (le : LoginExecutor) (w : LoginWorld)
    (hok : (le.login w).1 = .ok ()) :
    ∃ w3 : LoginWorld, w3.jar = w.jar ∧ le.login w = set_sessionid_cookies w3 := by
  unfold LoginExecutor.login at hok ⊢
  cases hs : le.send_login_request w with
  | mk r1e w1 =>
    rw [hs] at hok
    cases r1e with
    | error e => simp at hok
    | ok r1 =>
      dsimp only at hok ⊢
      cases hcc : check_for_captcha r1 with
      | error e => rw [hcc] at hok; simp at hok
      | ok a =>
        rw [hcc] at hok
        dsimp only at hok ⊢
        cases hsg : le.enter_steam_guard_if_necessary r1 w1 with
        | mk r2e w2 =>
          rw [hsg] at hok
          cases r2e with
          | error e => simp at hok
          | ok r2 =>
            dsimp only at hok ⊢
            unfold login_tail at hok ⊢
            cases ha : assert_valid_credentials r2 with
            | error e => rw [ha] at hok; simp at hok
            | ok b =>
              rw [ha] at hok
              dsimp only at hok ⊢
              cases hpr : perform_redirects r2 w2 with
              | mk pe w3 =>
                rw [hpr] at hok
                cases pe with
                | error e => simp at hok
                | ok c =>
                  refine ⟨w3, ?_, rfl⟩
                  have h3 := (perform_redirects_world r2 w2).2.2.1
                  rw [hpr] at h3
                  have h2 := enter_steam_guard_jar le r1 w1
                  rw [hsg] at h2
                  have h1 := send_login_request_jar le w
                  rw [hs] at h1
                  rw [h3, h2, h1]

theorem set_sessionid_cookies_spec (w : LoginWorld) (v : String)
    (h : jarLookup w.jar "help.steampowered.com" = some v) :
    (set_sessionid_cookies w).1 = .ok () ∧
    jarLookup (set_sessionid_cookies w).2.jar "steamcommunity.com" = some v ∧
    jarLookup (set_sessionid_cookies w).2.jar "store.steampowered.com" = some v ∧
    jarLookup (set_sessionid_cookies w).2.jar "help.steampowered.com" = some v := by
  have hcd : COMMUNITY_URL.drop 8 = "steamcommunity.com" := rfl
  have hsd : STORE_URL.drop 8 = "store.steampowered.com" := rfl
  unfold set_sessionid_cookies
  rw [h, hcd, hsd]
  refine ⟨rfl, ?_, ?_, ?_⟩ <;>
    simp_all +decide [jarLookup, jarSet, List.find?]

/-! ## Claim C6 -/

/-- Claim C6: whenever a login run succeeds, the session identifier cookie
that was filed for the `help.steampowered.com` origin is present, with
the identical value, on the community origin and the store origin in the
final cookie jar (and still on the origin it was read from). -/
theorem session_cookie_propagation (le : LoginExecutor) (w : LoginWorld)
    (hok : (le.login w).1 = .ok ()) :
    ∃ v, jarLookup w.jar "help.steampowered.com" = some v ∧
      jarLookup (le.login w).2.jar "steamcommunity.com" = some v ∧
      jarLookup (le.login w).2.jar "store.steampowered.com" = some v ∧
      jarLookup (le.login w).2.jar "help.steampowered.com" = some v := by
  obtain ⟨w3, hjar, heq⟩ := login_ok_inversion le w hok
  rw [heq] at hok ⊢
  cases hl : jarLookup w3.jar "help.steampowered.com" with
  | none =>
    unfold set_sessionid_cookies at hok
    rw [hl] at hok
    simp at hok
  | some v =>
    have hspec := set_sessionid_cookies_spec w3 v hl
    rw [hjar] at hl
    exact ⟨v, hl, hspec.2.1, hspec.2.2.1, hspec.2.2.2⟩

/-- Claim C6, witness at a concrete successful login run. -/
theorem session_cookie_propagation_witness :
    jarLookup (mkWorld [kGood] [rOk]).jar "help.steampowered.com" = some "SESSID" ∧
    jarLookup ((LoginExecutor.mk "u" "p" "sec").login
        (mkWorld [kGood] [rOk])).2.jar "steamcommunity.com" = some "SESSID" ∧
    jarLookup ((LoginExecutor.mk "u" "p" "sec").login
        (mkWorld [kGood] [rOk])).2.jar "store.steampowered.com" = some "SESSID" := by
  obtain ⟨v, h1, h2, h3, h4⟩ := session_cookie_propagation
    (LoginExecutor.mk "u" "p" "sec") (mkWorld [kGood] [rOk]) (by rfl)
  have hv : v = "SESSID" := by
    have : jarLookup (mkWorld [kGood] [rOk]).jar "help.steampowered.com" =
        some "SESSID" := by rfl
    rw [this] at h1
    exact (Option.some.injEq _ _ ▸ h1).symm
  subst hv
  exact ⟨h1, h2, h3⟩

/-! ## Claim C10 -/

/-- Claim C10: `SteamClient.login` is atomic with respect to
`was_login_executed` — starting from a not-logged-in client, the flag is
true after the call exactly when the whole sequence succeeded, and after
any error every `login_required`-guarded operation still fails with the
not-logged-in error. -/
theorem client_login_atomic (st : SteamClient) (g : GuardFile) (u p : String)
    (w : LoginWorld) (h0 : st.was_login_executed = false) :
    ((SteamClient.login st g u p w).2.1.was_login_executed = true ↔
      (SteamClient.login st g u p w).1 = .ok ()) ∧
    (∀ e : PyErr, (SteamClient.login st g u p w).1 = .error e →
      ∀ (α : Type) (f : SteamClient → List CReq × Except PyErr α),
        login_required f (SteamClient.login st g u p w).2.1 =
          ([], .error .loginRequired)) := by
  unfold SteamClient.login
  cases hg : load_steam_guard g with
  | error e =>
    refine ⟨by simp [h0], ?_⟩
    intro e' he' α f
    simp [login_required, h0]
  | ok gs =>
    cases hle : (LoginExecutor.mk u p gs.shared_secret).login w with
    | mk res w1 =>
      cases res with
      | error e =>
        refine ⟨by simp [h0, hle], ?_⟩
        intro e' he' α f
        simp [login_required, h0, hle]
      | ok a =>
        refine ⟨by simp [hle], ?_⟩
        intro e' he' α f
        simp [hle] at he'

/-- Claim C10, witness: a captcha-demanding provider leaves the flag
false and guarded operations failing fast; the successful run flips it. -/
theorem client_login_atomic_witness :
    ((SteamClient.login freshClient gFile "u" "p"
        (mkWorld [kGood] [⟨some false, true, false, none, none⟩])).2.1.was_login_executed
      ↔ (SteamClient.login freshClient gFile "u" "p"
        (mkWorld [kGood] [⟨some false, true, false, none, none⟩])).1 = .ok ()) ∧
    ((SteamClient.login freshClient gFile "u" "p"
        (mkWorld [kGood] [rOk])).2.1.was_login_executed = true ↔
      (SteamClient.login freshClient gFile "u" "p"
        (mkWorld [kGood] [rOk])).1 = .ok ()) := by
  have hA := client_login_atomic freshClient gFile "u" "p"
    (mkWorld [kGood] [⟨some false, true, false, none, none⟩]) rfl
  have hB := client_login_atomic freshClient gFile "u" "p" (mkWorld [kGood] [rOk]) rfl
  exact ⟨by simpa using hA.1, hB.1⟩

/-! ## Lemmas about the select loop -/

theorem details_trace_parts (ex : ConfirmationExecutor) (clk : Nat → Nat) :
    ∀ (confs : List Confirmation) (i : Nat),
    (ex.details_trace clk confs i).filter ConfReq.isAllow = [] ∧
    (ex.details_trace clk confs i).filter ConfReq.isListFetch = [] ∧
    (ex.details_trace clk confs i).filter ConfReq.isDetails =
      ex.details_trace clk confs i ∧
    (ex.details_trace clk confs i).length = confs.length := by
  intro confs
  induction confs with
  | nil => intro i; simp [ConfirmationExecutor.details_trace]
  | cons c rest ih =>
    intro i
    have h := ih (i + 1)
    simp [ConfirmationExecutor.details_trace, ConfReq.isAllow, ConfReq.isListFetch,
      ConfReq.isDetails, h.1, h.2.1, h.2.2.1, h.2.2.2]

theorem select_trade_offer_no_match (ex : ConfirmationExecutor) (env : ConfEnv)
    (clk : Nat → Nat) (target : String) :
    ∀ (confs : List Confirmation) (i : Nat),
    (∀ c ∈ confs, ∃ s, extractedId env c = .ok s ∧ s ≠ target) →
    ex.select_trade_offer_confirmation env clk confs target i =
      (ex.details_trace clk confs i, i + confs.length, .error .confirmationExpected) := by
  intro confs
  induction confs with
  | nil =>
    intro i _
    simp [ConfirmationExecutor.select_trade_offer_confirmation,
      ConfirmationExecutor.details_trace]
  | cons c rest ih =>
    intro i h
    obtain ⟨str, hstr, hne⟩ := h c (List.mem_cons_self c rest)
    have hrest : ∀ c' ∈ rest, ∃ s, extractedId env c' = .ok s ∧ s ≠ target :=
      fun c' hc' => h c' (List.mem_cons_of_mem c hc')
    simp only [ConfirmationExecutor.select_trade_offer_confirmation,
      ConfirmationExecutor.fetch_confirmation_details_page]
    rw [show get_confirmation_trade_offer_id (env.detail c.id) = .ok str from hstr]
    dsimp only
    rw [if_neg hne, ih (i + 1) hrest]
    simp [ConfirmationExecutor.details_trace]
    omega

theorem select_trade_offer_first_match (ex : ConfirmationExecutor) (env : ConfEnv)
    (clk : Nat → Nat) (target : String) :
    ∀ (pre : List Confirmation) (c : Confirmation) (post : List Confirmation) (i : Nat),
    (∀ c' ∈ pre, ∃ s, extractedId env c' = .ok s ∧ s ≠ target) →
    extractedId env c = .ok target →
    ex.select_trade_offer_confirmation env clk (pre ++ c :: post) target i =
      (ex.details_trace clk (pre ++ [c]) i, i + (pre.length + 1), .ok c) := by
  intro pre
  induction pre with
  | nil =>
    intro c post i _ hc
    simp only [List.nil_append, ConfirmationExecutor.select_trade_offer_confirmation,
      ConfirmationExecutor.fetch_confirmation_details_page]
    rw [show get_confirmation_trade_offer_id (env.detail c.id) = .ok target from hc]
    dsimp only
    rw [if_pos rfl]
    simp [ConfirmationExecutor.details_trace]
  | cons a pre' ih =>
    intro c post i hpre hc
    obtain ⟨str, hstr, hne⟩ := hpre a (List.mem_cons_self a pre')
    have hpre' : ∀ c' ∈ pre', ∃ s, extractedId env c' = .ok s ∧ s ≠ target :=
      fun c' hc' => hpre c' (List.mem_cons_of_mem a hc')
    simp only [List.cons_append, ConfirmationExecutor.select_trade_offer_confirmation,
      ConfirmationExecutor.fetch_confirmation_details_page]
    rw [show get_confirmation_trade_offer_id (env.detail a.id) = .ok str from hstr]
    dsimp only
    rw [if_neg hne]
    simp only [List.append_eq]
    rw [ih c post (i + 1) hpre' hc]
    simp [ConfirmationExecutor.details_trace]
    omega

/-! ## Claim C2 -/

/-- Claim C2, code-bug evidence.  First conjunct: every invocation of
`send_trade_allow_request` raises TypeError at the list fetch — the
un-awaited `_create_confirmation_params` coroutine is passed as query
parameters — issuing no request at all, so no detail page is ever
scanned and no allow request issued, where the claim says the engine
scans in list order and allows the first match.  Remaining conjuncts:
the matching logic the operation was meant to drive is itself intact —
`_select_trade_offer_confirmation` scans detail pages in list order,
stops at the first confirmation whose extracted identifier equals the
target (having fetched exactly the first-match prefix, with no allow
request of its own), `_send_confirmation` then issues exactly one allow
request carrying that entry's two tamper tokens, and an exhausted list
yields `ConfirmationExpected` with no allow request. -/
theorem first_match_logic_unreachable
    (ex : ConfirmationExecutor) (env : ConfEnv) (clk : Nat → Nat) (target : String)
    (confs : List Confirmation) (i : Nat) :
    ex.send_trade_allow_request env clk target =
      ([], .error (.typeError "Invalid query type: coroutine")) ∧
    (∀ (pre : List Confirmation) (c : Confirmation) (post : List Confirmation),
      confs = pre ++ c :: post →
      (∀ c' ∈ pre, ∃ s, extractedId env c' = .ok s ∧ s ≠ target) →
      extractedId env c = .ok target →
      ((ex.select_trade_offer_confirmation env clk confs target i).2.2 = .ok c ∧
       ((ex.select_trade_offer_confirmation env clk confs target i).1.filter
         ConfReq.isDetails).length = pre.length + 1 ∧
       (ex.select_trade_offer_confirmation env clk confs target i).1.filter
         ConfReq.isAllow = [] ∧
       (∀ j : Nat, ∃ ap : AllowParams,
         ex.send_confirmation clk j c =
           ([ConfReq.ajaxAllow (CONF_URL ++ "/ajaxop") ap], j + 1, .ok ()) ∧
         ap.cid = c.data_confid ∧ ap.ck = c.data_key))) ∧
    ((∀ c ∈ confs, ∃ s, extractedId env c = .ok s ∧ s ≠ target) →
      ((ex.select_trade_offer_confirmation env clk confs target i).2.2 =
        .error .confirmationExpected ∧
       (ex.select_trade_offer_confirmation env clk confs target i).1.filter
         ConfReq.isAllow = [])) := by
  refine ⟨rfl, ?_, ?_⟩
  · intro pre c post hsplit hpre hc
    subst hsplit
    have hsel := select_trade_offer_first_match ex env clk target pre c post i hpre hc
    have hd := details_trace_parts ex clk (pre ++ [c]) i
    refine ⟨by rw [hsel], ?_, ?_, ?_⟩
    · rw [hsel]
      simp only [hd.2.2.1, hd.2.2.2]
      simp
    · rw [hsel]
      exact hd.1
    · intro j
      exact ⟨AllowParams.mk (ex.create_confirmation_params "allow" (clk j))
        ["allow"] c.data_confid c.data_key, rfl, rfl, rfl⟩
  · intro hnm
    have hsel := select_trade_offer_no_match ex env clk target confs i hnm
    have hd := details_trace_parts ex clk confs i
    rw [hsel]
    exact ⟨rfl, hd.1⟩

/-- Claim C2, witness: three pending confirmations embedding `A`, `B`,
`C`; target `B` selects the second entry after two detail fetches, one
allow request carries its tokens, target `Z` exhausts the list with the
not-found error, and the public operation itself crashes. -/
theorem first_match_logic_unreachable_witness :
    ConfirmationExecutor.send_trade_allow_request ⟨"is", "sid"⟩ threeEnv
        (fun t => 100 + t) "B" =
      ([], .error (.typeError "Invalid query type: coroutine")) ∧
    (ConfirmationExecutor.select_trade_offer_confirmation ⟨"is", "sid"⟩ threeEnv
        (fun t => 100 + t)
        [⟨"1", "cid1", "ck1"⟩, ⟨"2", "cid2", "ck2"⟩, ⟨"3", "cid3", "ck3"⟩]
        "B" 1).2.2 = .ok ⟨"2", "cid2", "ck2"⟩ ∧
    ((ConfirmationExecutor.select_trade_offer_confirmation ⟨"is", "sid"⟩ threeEnv
        (fun t => 100 + t)
        [⟨"1", "cid1", "ck1"⟩, ⟨"2", "cid2", "ck2"⟩, ⟨"3", "cid3", "ck3"⟩]
        "B" 1).1.filter ConfReq.isDetails).length = 2 ∧
    (∃ ap : AllowParams,
      ConfirmationExecutor.send_confirmation ⟨"is", "sid"⟩ (fun t => 100 + t) 3
          ⟨"2", "cid2", "ck2"⟩ =
        ([ConfReq.ajaxAllow (CONF_URL ++ "/ajaxop") ap], 4, .ok ()) ∧
      ap.cid = "cid2" ∧ ap.ck = "ck2") ∧
    (ConfirmationExecutor.select_trade_offer_confirmation ⟨"is", "sid"⟩ threeEnv
        (fun t => 100 + t)
        [⟨"1", "cid1", "ck1"⟩, ⟨"2", "cid2", "ck2"⟩, ⟨"3", "cid3", "ck3"⟩]
        "Z" 1).2.2 = .error .confirmationExpected := by
  have hB := first_match_logic_unreachable ⟨"is", "sid"⟩ threeEnv (fun t => 100 + t) "B"
    [⟨"1", "cid1", "ck1"⟩, ⟨"2", "cid2", "ck2"⟩, ⟨"3", "cid3", "ck3"⟩] 1
  have hZ := (first_match_logic_unreachable ⟨"is", "sid"⟩ threeEnv (fun t => 100 + t) "Z"
    [⟨"1", "cid1", "ck1"⟩, ⟨"2", "cid2", "ck2"⟩, ⟨"3", "cid3", "ck3"⟩] 1).2.2
    (by
      intro c hc
      simp only [List.mem_cons, List.mem_singleton, List.not_mem_nil, or_false] at hc
      rcases hc with h | h | h
      · subst h; exact ⟨"A", rfl, by decide⟩
      · subst h; exact ⟨"B", rfl, by decide⟩
      · subst h; exact ⟨"C", rfl, by decide⟩)
  have hBm := hB.2.1 [⟨"1", "cid1", "ck1"⟩] ⟨"2", "cid2", "ck2"⟩ [⟨"3", "cid3", "ck3"⟩] rfl
    (by
      intro c' hc'
      simp only [List.mem_singleton] at hc'
      subst hc'
      exact ⟨"A", rfl, by decide⟩)
    rfl
  exact ⟨hB.1, hBm.1, hBm.2.1, hBm.2.2.2 3, hZ.1⟩

/-! ## Claim C3 -/

/-- Claim C3, code-bug evidence.  First conjunct: no matched
confirmation is ever reached — the operation raises TypeError at the
list fetch, whose un-awaited parameter coroutine never runs, so the
claimed earlier tag-`conf` signature is never even computed or sent.
Second conjunct: `_send_confirmation` itself, were a match reached, GETs
the ajax-allow endpoint with `op = ("allow",)` (the source's trailing
comma makes the value a 1-tuple, serialised as the single pair
`op=allow`), the matched entry's two tamper tokens, and a
confirmation-key signature generated by its own
`_create_confirmation_params('allow')` call — timestamped at its own
clock read, and distinct from every tag-`conf` key the list fetch was
meant to send. -/
theorem allow_signature_fresh_but_unreachable
    (ex : ConfirmationExecutor) (env : ConfEnv) (clk : Nat → Nat) (target : String)
    (c : Confirmation) (j : Nat) :
    ex.send_trade_allow_request env clk target =
      ([], .error (.typeError "Invalid query type: coroutine")) ∧
    ∃ ap : AllowParams,
      ex.send_confirmation clk j c =
        ([ConfReq.ajaxAllow (CONF_URL ++ "/ajaxop") ap], j + 1, .ok ()) ∧
      ap.op = ["allow"] ∧ ap.cid = c.data_confid ∧ ap.ck = c.data_key ∧
      ap.base.t = clk j ∧
      ap.base.k = generate_confirmation_key ex.identity_secret "allow" (clk j) ∧
      (∀ t' : Nat, ap.base.k ≠ generate_confirmation_key ex.identity_secret "conf" t') := by
  refine ⟨rfl,
    AllowParams.mk (ex.create_confirmation_params "allow" (clk j))
      ["allow"] c.data_confid c.data_key,
    rfl, rfl, rfl, rfl, rfl, rfl, ?_⟩
  intro t' hk
  have htag : ("allow" : String) = "conf" := congrArg ConfKey.tag hk
  exact absurd htag (by decide)

/-- Claim C3, witness at the three-confirmation provider, the second
entry, and the send-time tick the intended flow would have used. -/
theorem allow_signature_fresh_but_unreachable_witness :
    ConfirmationExecutor.send_trade_allow_request ⟨"is", "sid"⟩ threeEnv
        (fun t => 100 + t) "B" =
      ([], .error (.typeError "Invalid query type: coroutine")) ∧
    ∃ ap : AllowParams,
      ConfirmationExecutor.send_confirmation ⟨"is", "sid"⟩ (fun t => 100 + t) 3
          ⟨"2", "cid2", "ck2"⟩ =
        ([ConfReq.ajaxAllow (CONF_URL ++ "/ajaxop") ap], 4, .ok ()) ∧
      ap.op = ["allow"] ∧ ap.cid = "cid2" ∧ ap.ck = "ck2" ∧
      ap.base.t = 103 ∧
      ap.base.k = generate_confirmation_key "is" "allow" 103 ∧
      (∀ t' : Nat, ap.base.k ≠ generate_confirmation_key "is" "conf" t') :=
  allow_signature_fresh_but_unreachable ⟨"is", "sid"⟩ threeEnv (fun t => 100 + t) "B"
    ⟨"2", "cid2", "ck2"⟩ 3

end Steampy
